import Mathlib

set_option autoImplicit false

/-!
Verification of `rollup-plugin-oxc-resolve` against its specification.

The repository carries two variants of the resolution algorithm:
the TypeScript source `src/src/index.ts` (embedded below in namespace `Src`)
and the more defensive variant of the same plugin reproduced in full inside
`src/README.md` (embedded in namespace `Dist`).  Both variants are embedded
faithfully, statement for statement; JavaScript quirks (string coercion of
`undefined`, truthiness of the empty string, `split` keeping only the first
two components under destructuring, a regex applied to `importee[0]` instead
of `importee`) are modelled explicitly and are pointed out in comments.

Pure collaborators that the plugin merely consumes (the oxc-resolver engine,
`path.dirname`, `path.resolve`, the platform builtin-module list, and the
host's `this.resolve` chain) are abstracted as fields of a context record:
the plugin never inspects their internals, only their results.
-/

namespace OxcResolve

/-! ## JavaScript string primitives, modelled on `List Char` -/

/-- Splitting a character list at every character satisfying `p`,
with the semantics of JavaScript `String.prototype.split` on a
single-character regex class: the empty string yields `[""]`,
separators at the ends yield empty fragments. -/
def splitPredL (p : Char → Bool) : List Char → List (List Char)
  | [] => [[]]
  | x :: xs =>
    if p x then [] :: splitPredL p xs
    else
      match splitPredL p xs with
      | [] => [[x]]
      | g :: gs => (x :: g) :: gs

/-- JavaScript `s.split(<regex char class p>)`. -/
def strSplitPred (p : Char → Bool) (s : String) : List String :=
  (splitPredL p s.data).map (fun l => ⟨l⟩)

/-- JavaScript `s.endsWith(suffix)`. -/
def jsEndsWith (s suffix : String) : Bool := suffix.data.isSuffixOf s.data

/-- JavaScript `s.startsWith(prefix)`. -/
def jsStartsWith (s pre : String) : Bool := pre.data.isPrefixOf s.data

/-- JavaScript `s.slice(0, -k)` for `0 < k ≤ s.length`: drop the last `k`
UTF-16 units (all strings manipulated by the plugin are ASCII, so code
units and characters coincide). -/
def jsDropRight (s : String) (k : Nat) : String := ⟨s.data.take (s.data.length - k)⟩

/-- First character of a string, `s[0]` (`none` models `undefined`). -/
def firstChar (s : String) : Option Char := s.data.head?

/-- JavaScript truthiness of `string | undefined`: `undefined` and `""` are falsy. -/
def jsTruthyStr : Option String → Bool
  | none => false
  | some s => s ≠ ""

/-- The NUL character `'\0'`. -/
def nulChar : Char := Char.ofNat 0

/-! ## Data model: engine results, outcomes, diagnostics -/

/-- Result of `resolverFactory.async(base, specifier)`:
oxc-resolver's `ResolveResult { path?: string, error?: string }`. -/
structure ResolveResult where
  path : Option String
  error : Option String
  deriving Repr, DecidableEq

/-- JavaScript `resolved.path + importSuffix`: when `path` is `undefined`
the `+` operator coerces it to the string `"undefined"`. -/
def jsPathConcat : Option String → String → String
  | none, suf => "undefined" ++ suf
  | some p, suf => p ++ suf

/-- Diagnostics emitted through `context.warn`. -/
inductive Warning where
  /-- `context.warn(resolved.error)` — the engine's diagnostic string. -/
  | engineError (msg : String)
  /-- The `PREFER_BUILTINS` advisory
  (`context.warn({ message: ..., pluginCode: 'PREFER_BUILTINS' })`). -/
  | preferBuiltins (importee : String) (path : Option String)
  deriving Repr, DecidableEq

/-- Value returned by `resolveLikeNode` to the `resolveId` hook. -/
inductive Outcome where
  /-- `{ id }` — a resolved-id record. -/
  | resolvedId (id : String)
  /-- `false` — explicitly external / out of scope. -/
  | externalFalse
  /-- `null` — no opinion. -/
  | nullResult
  /-- `{ id, external: true, moduleSideEffects: false }` (Dist variant only). -/
  | externalRecord (id : String)
  deriving Repr, DecidableEq

/-- One run of `resolveLikeNode`: the returned value, the sequence of
`(base, specifier)` calls made to the resolver engine, in order, and the
diagnostics emitted through `context.warn`, in order. -/
structure RLNResult where
  outcome : Outcome
  probes : List (String × String)
  warnings : List Warning
  deriving Repr, DecidableEq

/-! ## Configuration surface -/

/-- The `preferBuiltins` option: a plain boolean or a predicate over the specifier. -/
inductive PreferBuiltins where
  | bool (b : Bool)
  | func (f : String → Bool)

/-- `typeof preferBuiltins === 'function' ? preferBuiltins(importee) : preferBuiltins`. -/
def PreferBuiltins.eval : PreferBuiltins → String → Bool
  | .bool b, _ => b
  | .func f, s => f s

/-- One entry of the `resolveOnly` array: a literal string or a RegExp.
A RegExp instance is kept as its (abstract) test function; a string is
escaped and anchored by `allowPatterns`, which makes it an exact literal match. -/
inductive AllowPattern where
  | str (s : String)
  | regex (test : String → Bool)

/-- `pattern.test(id)` after `allowPatterns` normalisation: string patterns
have every regex metacharacter escaped and are anchored `^...$`, i.e. they
match exactly the literal string; RegExp patterns are applied as given. -/
def AllowPattern.test : AllowPattern → String → Bool
  | .str p, id => id = p
  | .regex f, id => f id

/-- The helper `allowPatterns(patterns)` of `src/src/index.ts`:
`(id) => !regexPatterns.length || regexPatterns.some((pattern) => pattern.test(id))`. -/
def allowPatterns (patterns : List AllowPattern) (id : String) : Bool :=
  patterns.isEmpty || patterns.any (fun p => p.test id)

/-- The `resolveOnly` option: an array of patterns, or a user predicate. -/
inductive ResolveOnlyOpt where
  | patterns (ps : List AllowPattern)
  | func (f : String → Bool)

/-- `typeof options.resolveOnly === 'function' ? options.resolveOnly : allowPatterns(options.resolveOnly)`. -/
def ResolveOnlyOpt.toPred : ResolveOnlyOpt → String → Bool
  | .func f => f
  | .patterns ps => allowPatterns ps

/-- User-supplied plugin options.  A `none` field models an absent key.
Options that are only forwarded to the oxc-resolver engine
(`conditionNames`, `mainFields`, `exportsFields`, `mainFiles`, `symlinks`)
are carried through the merge but play no role in the plugin's own logic,
so only the fields the plugin itself reads are retained in `Config`. -/
structure UserOptions where
  extensions : Option (List String) := none
  conditionNames : Option (List String) := none
  mainFields : Option (List String) := none
  exportsFields : Option (List String) := none
  mainFiles : Option (List String) := none
  extensionAlias : Option (List (String × List String)) := none
  builtinModules : Option Bool := none
  rootDir : Option String := none
  preferBuiltins : Option PreferBuiltins := none
  resolveOnly : Option ResolveOnlyOpt := none

/-- The JavaScript spread merge `{ ...defaults, ...options }`:
a key present in `options` wins, otherwise the default's key is used. -/
def mergeOptions (defaults o : UserOptions) : UserOptions :=
  { extensions := o.extensions <|> defaults.extensions
    conditionNames := o.conditionNames <|> defaults.conditionNames
    mainFields := o.mainFields <|> defaults.mainFields
    exportsFields := o.exportsFields <|> defaults.exportsFields
    mainFiles := o.mainFiles <|> defaults.mainFiles
    extensionAlias := o.extensionAlias <|> defaults.extensionAlias
    builtinModules := o.builtinModules <|> defaults.builtinModules
    rootDir := o.rootDir <|> defaults.rootDir
    preferBuiltins := o.preferBuiltins <|> defaults.preferBuiltins
    resolveOnly := o.resolveOnly <|> defaults.resolveOnly }

/-- The configuration snapshot the resolver closure actually reads. -/
structure Config where
  extensions : List String
  /-- The gate predicate, already normalised through `allowPatterns` when needed. -/
  resolveOnly : String → Bool
  /-- Truthiness of the destructured `builtinModules` option. -/
  useBuiltinModules : Bool
  preferBuiltins : PreferBuiltins
  /-- `Object.hasOwn(options, 'preferBuiltins')`. -/
  isPreferBuiltinsSet : Bool
  /-- Forwarded to the engine; never read by the plugin's own candidate logic. -/
  extensionAlias : List (String × List String)
  /-- Dist variant only; the Src variant has no such option. -/
  rootDir : String

/-- What the host's `this.resolve` returns (a `PartialResolvedId`);
`meta` is an opaque token standing for plugin-attached metadata. -/
structure HostRes where
  id : String
  external : Bool
  meta : Nat
  deriving Repr, DecidableEq

/-- External collaborators, abstracted: the plugin only consumes their results. -/
structure Ctx where
  /-- `resolverFactory.async` -/
  engine : String → String → ResolveResult
  /-- `process.cwd()` -/
  cwd : String
  /-- `path.dirname` -/
  dirname : String → String
  /-- `path.resolve(baseDir, importee)` -/
  pathResolve : String → String → String
  /-- `builtinModules` from `node:module` -/
  builtinList : List String
  /-- `this.resolve(id, importer, ...)` — the host's own resolution chain;
  `none` models a `null` host result. -/
  hostResolve : String → Option String → Option HostRes

/-- Rollup's normalized `input` option: a string, an array, or an object. -/
inductive RollupInput where
  | str (s : String)
  | arr (l : List String)
  | obj (entries : List (String × String))

/-- The helper `normalizeInput` of `src/src/index.ts`. -/
def normalizeInput : RollupInput → List String
  | .arr l => l
  | .obj es => es.map Prod.snd
  | .str s => [s]

/-! ## Specifier Classifier -/

/-- `importee.split('?')` with array destructuring `[importPath, params]`:
the part before the first `?`, and the reattachable suffix
`params ? '?' + params : ''` — only the text strictly between the first
and second `?` survives, and an empty `params` is falsy and dropped. -/
def jsSplitQuery (importee : String) : String × String :=
  match strSplitPred (fun c => c = '?') importee with
  | [] => (importee, "")
  | [p] => (p, "")
  | p :: params :: _ => (p, if params = "" then "" else "?" ++ params)

/-- `importee.split(/[/\\]/)`. -/
def splitPath (s : String) : List String :=
  strSplitPred (fun c => c = '/' || c = '\\') s

/-- `importee.replace(/^node:/, '')`: strip one leading `node:` prefix. -/
def stripNodePrefix (s : String) : String :=
  if jsStartsWith s "node:" then ⟨s.data.drop 5⟩ else s

/-- Lines 75–86 of `src/src/index.ts` (identical in the Dist variant): the
candidate package name and the relative-import flag.  `parts.shift()` takes
the first path segment; a leading `@` with remaining segments appends the
second segment (scoped package); a leading `.` resolves the specifier
against the base directory and classifies it relative. -/
def classify (ctx : Ctx) (baseDir importee : String) : String × Bool :=
  match splitPath importee with
  | [] => ("", false)
  | id0 :: rest =>
    if firstChar id0 = some '@' && decide (rest.length > 0) then
      (id0 ++ "/" ++ rest.headD "", false)
    else if firstChar id0 = some '.' then
      (ctx.pathResolve baseDir importee, true)
    else (id0, false)

/-- The relative-import flag depends only on the specifier text:
it is set exactly when the first path segment starts with `.`. -/
def isRelativeSpecifier (s : String) : Bool :=
  firstChar ((splitPath s).headD "") = some '.'

/-- Lines 88–94: the gate fires when the import is not relative and
`resolveOnly` rejects its package name. -/
def gateFails (ctx : Ctx) (cfg : Config) (baseDir importee : String) : Bool :=
  !(classify ctx baseDir importee).2 && !cfg.resolveOnly (classify ctx baseDir importee).1

/-- Line 127 (line 176 of the Dist variant): builtin recognition. -/
def isBuiltinSpec (ctx : Ctx) (cfg : Config) (importee : String) : Bool :=
  cfg.useBuiltinModules && ctx.builtinList.contains (stripNodePrefix importee)

/-- `if (resolved?.error) context.warn(resolved.error)`: an empty error
string is falsy and emits nothing. -/
def errWarnings (r : ResolveResult) : List Warning :=
  match r.error with
  | some e => if e = "" then [] else [.engineError e]
  | none => []

/-- The importer-side guard of the TypeScript-interop rule:
`importer && /\.(?:ts|[cm]ts|tsx)$/.test(importer)` — truthiness of the
importer string, then the extension regex. -/
def importerIsTs : Option String → Bool
  | none => false
  | some imp =>
    imp ≠ "" &&
      (jsEndsWith imp ".ts" || jsEndsWith imp ".cts" ||
       jsEndsWith imp ".mts" || jsEndsWith imp ".tsx")

/-- The hardcoded extension pairs of lines 110–116, in source order. -/
def tsExtPairs : List (String × String) :=
  [(".js", ".ts"), (".js", ".tsx"), (".jsx", ".tsx"), (".mjs", ".mts"), (".cjs", ".cts")]

/-- The `/^\.{0,2}\//` test of line 98 is applied to `importee[0]` — a single
character (or `undefined`, coerced by the regex engine to the string
`"undefined"`, which does not match).  A single character matches the regex
exactly when it is `'/'`; so the fallback is suppressed only for specifiers
whose first character is `'/'`. -/
def rootFallbackSuppressed (importee : String) : Bool :=
  firstChar importee = some '/'

/-- The probe loop of lines 137–147 (190–202 in the Dist variant).  Each
iteration unconditionally reassigns `resolved` to the engine's result for
the current candidate; `if (!resolved.path) { continue; }` at the end of the
loop body is a no-op, so the loop never stops early and the last candidate's
result is the one kept.  Returns the final `resolved` together with the full
ordered list of engine calls that were made. -/
def runProbes (ctx : Ctx) (base : String) (list : List String) :
    Option ResolveResult × List (String × String) :=
  (list.foldl (fun _acc spec => some (ctx.engine base spec)) none,
   list.map (fun spec => (base, spec)))

/-- The sentinel virtual specifier `'\0node-resolve:empty.js'`. -/
def ES6_BROWSER_EMPTY : String := ⟨nulChar :: "node-resolve:empty.js".data⟩

/-! ## The `src/src/index.ts` variant -/

namespace Src

/-- `defaultOptions` of `src/src/index.ts` (lines 24–30). -/
def defaultOptions : UserOptions :=
  { extensions := some [".mjs", ".cjs", ".js", ".json", ".node"]
    conditionNames := some ["default", "module", "import", "require"]
    mainFields := some ["browser", "module", "main"]
    exportsFields := some ["exports"]
    mainFiles := some ["index"] }

/-- The option processing of `oxcResolve` (lines 33–60): merge over the
defaults, destructure.  `builtinModules` is destructured with **no**
default, so an absent key leaves `useBuiltinModules` undefined, which is
falsy; `preferBuiltins` defaults to `true` only when the key is absent;
`resolveOnly` falls back to `allowPatterns` over an empty pattern list.
The Src variant has no `rootDir` option; the field is unused here. -/
def mkConfig (o : UserOptions) : Config :=
  { extensions := (mergeOptions defaultOptions o).extensions.getD []
    resolveOnly := ((mergeOptions defaultOptions o).resolveOnly.getD (.patterns [])).toPred
    useBuiltinModules := (mergeOptions defaultOptions o).builtinModules.getD false
    preferBuiltins := (mergeOptions defaultOptions o).preferBuiltins.getD (.bool true)
    isPreferBuiltinsSet := o.preferBuiltins.isSome
    extensionAlias := (mergeOptions defaultOptions o).extensionAlias.getD []
    rootDir := "" }

/-- Line 73: `const baseDir = importer ? dirname(importer) : process.cwd();`
(`importer` is tested for truthiness: an empty string also falls back). -/
def baseDirOf (ctx : Ctx) (importer : Option String) : String :=
  match importer with
  | some imp => if imp = "" then ctx.cwd else ctx.dirname imp
  | none => ctx.cwd

/-- Line 140: the engine's base is `importer ?? process.cwd()` — the importer
file path itself (not its directory); `??` only replaces `undefined`. -/
def probeBase (ctx : Ctx) (importer : Option String) : String :=
  importer.getD ctx.cwd

/-- Lines 96–121: the candidate specifier list.  Seed `[importee]`; for graph
roots whose first character is not `'/'` (see `rootFallbackSuppressed`) a
`./`-prefixed fallback is pushed; for TypeScript importers, each hardcoded
extension pair whose source ending matches and whose target extension is
listed in the configured `extensions` pushes a swapped-ending variant, in
pair order. -/
def importSpecifierList (cfg : Config) (importee : String) (importer : Option String) :
    List String :=
  let base :=
    if importer = none && !rootFallbackSuppressed importee then
      [importee] ++ ["./" ++ importee]
    else [importee]
  if importerIsTs importer then
    tsExtPairs.foldl
      (fun acc pr =>
        if jsEndsWith importee pr.1 && cfg.extensions.contains pr.2 then
          acc ++ [jsDropRight importee pr.1.length ++ pr.2]
        else acc)
      base
  else base

/-- Lines 135–171, after the builtin pre-check: run the probe loop, warn on a
final diagnostic, and compose the return value.  The `!resolved` null return
mirrors line 153 (unreachable in practice: the candidate list is never
empty).  The builtin block (lines 157–167) re-tests the very condition the
pre-check already returned on; it is embedded faithfully nonetheless. -/
def afterProbe (ctx : Ctx) (cfg : Config) (importee importSuffix : String)
    (specList : List String) (base : String) : RLNResult :=
  match runProbes ctx base specList with
  | (none, probes) => ⟨.nullResult, probes, []⟩
  | (some r, probes) =>
    if isBuiltinSpec ctx cfg importee && cfg.preferBuiltins.eval importee then
      ⟨.externalFalse, probes,
        errWarnings r ++
          (if !cfg.isPreferBuiltinsSet && decide (r.path ≠ some importee) then
            [Warning.preferBuiltins importee r.path]
          else [])⟩
    else
      ⟨.resolvedId (jsPathConcat r.path importSuffix), probes, errWarnings r⟩

/-- The body of `resolveLikeNode` after query stripping (lines 73–171):
classification, the resolve-only gate with its entry-point exception, the
candidate list, the builtin pre-check (which returns `null` in this
variant), and the probe loop. -/
def resolveCore (ctx : Ctx) (cfg : Config) (input : RollupInput)
    (importee importSuffix : String) (importer : Option String) : RLNResult :=
  if gateFails ctx cfg (baseDirOf ctx importer) importee then
    if (normalizeInput input).contains importee then ⟨.nullResult, [], []⟩
    else ⟨.externalFalse, [], []⟩
  else if isBuiltinSpec ctx cfg importee && cfg.preferBuiltins.eval importee then
    ⟨.nullResult, [], []⟩
  else
    afterProbe ctx cfg importee importSuffix
      (importSpecifierList cfg importee importer) (probeBase ctx importer)

/-- `resolveLikeNode` of `src/src/index.ts` (lines 62–172): strip the query
suffix, then run the core on the stripped path.  (The `exportConditions`
computation of lines 123–125 only mutates the engine-side `conditionNames`
array and is not part of the resolution logic modelled here.) -/
def resolveLikeNode (ctx : Ctx) (cfg : Config) (input : RollupInput)
    (importee : String) (importer : Option String) : RLNResult :=
  resolveCore ctx cfg input (jsSplitQuery importee).1 (jsSplitQuery importee).2 importer

/-- Lines 211–213: `if (importer?.includes('\0')) { importer = undefined; }`. -/
def normImporter (importer : Option String) : Option String :=
  match importer with
  | some imp => if imp.data.contains nulChar then none else some imp
  | none => none

/-- Value returned by the `resolveId` hook to rollup. -/
inductive HookValue where
  /-- a plain string id (the sentinel short-circuit) -/
  | str (s : String)
  /-- `null` / `undefined` — no opinion -/
  | nullV
  /-- `false` — external -/
  | falseV
  /-- a resolved-id record, with optional host-merged metadata -/
  | record (id : String) (meta : Option Nat)
  deriving Repr, DecidableEq

/-- One run of the `resolveId` hook: value, engine probes, warnings. -/
structure HookResult where
  value : HookValue
  probes : List (String × String)
  warnings : List Warning
  deriving Repr, DecidableEq

/-- Lines 216–241: when `resolveLikeNode` produced a truthy record, re-submit
the id to the host chain (`this.resolve` with `skipSelf: false`); a host
result marked external turns into `false`; a host result with a different id
wins; the same id merges the host's meta onto the record; a null host result
returns the record as-is. -/
def hostStage (ctx : Ctx) (importer : Option String) (rid : String) (r : RLNResult) :
    HookResult :=
  match ctx.hostResolve rid importer with
  | none => ⟨.record rid none, r.probes, r.warnings⟩
  | some hr =>
    if hr.external then ⟨.falseV, r.probes, r.warnings⟩
    else if hr.id ≠ rid then ⟨.record hr.id (some hr.meta), r.probes, r.warnings⟩
    else ⟨.record rid (some hr.meta), r.probes, r.warnings⟩

/-- The post-guard part of the hook: classify-and-resolve with the normalised
importer, then dispatch on the returned value's truthiness (`null` and
`false` are falsy and are returned unchanged; records go through the host
chain).  `Src.resolveLikeNode` never yields `.externalRecord`, but the
dispatch covers it the way the JavaScript truthiness test would. -/
def afterGuards (ctx : Ctx) (cfg : Config) (input : RollupInput)
    (importee : String) (importer : Option String) : HookResult :=
  match resolveLikeNode ctx cfg input importee importer with
  | ⟨.nullResult, probes, warnings⟩ => ⟨.nullV, probes, warnings⟩
  | ⟨.externalFalse, probes, warnings⟩ => ⟨.falseV, probes, warnings⟩
  | ⟨.resolvedId rid, probes, warnings⟩ =>
    hostStage ctx importer rid ⟨.resolvedId rid, probes, warnings⟩
  | ⟨.externalRecord rid, probes, warnings⟩ =>
    hostStage ctx importer rid ⟨.externalRecord rid, probes, warnings⟩

/-- The `resolveId` hook handler (lines 195–242): the sentinel returns
itself; an empty specifier or one containing NUL yields `null`; a request
another stage already resolved returns that record; an importer containing
NUL is replaced by `undefined` before resolution. -/
def resolveIdHandler (ctx : Ctx) (cfg : Config) (input : RollupInput)
    (importee : String) (importer : Option String) (alreadyResolved : Option String) :
    HookResult :=
  if importee = ES6_BROWSER_EMPTY then ⟨.str importee, [], []⟩
  else if importee = "" then ⟨.nullV, [], []⟩
  else if importee.data.contains nulChar then ⟨.nullV, [], []⟩
  else
    match alreadyResolved with
    | some prev => ⟨.record prev none, [], []⟩
    | none => afterGuards ctx cfg input importee (normImporter importer)

end Src

/-! ## The variant embedded in `src/README.md` (the packaged plugin) -/

namespace Dist

/-- `defaultOptions` of the Dist variant (README lines 81–96): adds `.wasm`
and a full `extensionAlias` table. -/
def defaultOptions : UserOptions :=
  { extensions := some [".mjs", ".cjs", ".js", ".json", ".node", ".wasm"]
    conditionNames := some ["default", "module", "import", "require"]
    mainFields := some ["browser", "module", "main"]
    exportsFields := some ["exports"]
    mainFiles := some ["index"]
    extensionAlias := some
      [(".js", [".tsx", ".mts", ".ts", ".cts", ".jsx", ".mjs", ".js", ".cjs"]),
       (".jsx", [".tsx", ".jsx"]),
       (".mjs", [".mts", ".mjs"]),
       (".cjs", [".cts", ".cjs"])] }

/-- Option processing of the Dist variant (README lines 99–130): here
`builtinModules` is destructured **with** default `true`, and `rootDir`
defaults to `process.cwd()`. -/
def mkConfig (cwd : String) (o : UserOptions) : Config :=
  { extensions := (mergeOptions defaultOptions o).extensions.getD []
    resolveOnly := ((mergeOptions defaultOptions o).resolveOnly.getD (.patterns [])).toPred
    useBuiltinModules := (mergeOptions defaultOptions o).builtinModules.getD true
    preferBuiltins := (mergeOptions defaultOptions o).preferBuiltins.getD (.bool true)
    isPreferBuiltinsSet := o.preferBuiltins.isSome
    extensionAlias := (mergeOptions defaultOptions o).extensionAlias.getD []
    rootDir := (mergeOptions defaultOptions o).rootDir.getD cwd }

/-- README line 142: `const baseDir = importer ? dirname(importer) : rootDir;`. -/
def baseDirOf (ctx : Ctx) (cfg : Config) (importer : Option String) : String :=
  match importer with
  | some imp => if imp = "" then cfg.rootDir else ctx.dirname imp
  | none => cfg.rootDir

/-- README line 193: `importer == null ? baseDir : dirname(importer)`
(`== null` is loose: only `undefined` selects `baseDir`, which for an
absent importer is `rootDir`). -/
def probeBase (ctx : Ctx) (cfg : Config) (importer : Option String) : String :=
  match importer with
  | some imp => ctx.dirname imp
  | none => cfg.rootDir

/-- README lines 165–174: the candidate list of the Dist variant — seed plus
the root-fragment fallback only (this variant has no TypeScript-interop
rule).  The guard additionally requires `importee[0]` to be truthy, i.e. the
specifier to be nonempty; the regex is still applied to the first character
only. -/
def importSpecifierList (importee : String) (importer : Option String) : List String :=
  if importer = none && importee ≠ "" && !rootFallbackSuppressed importee then
    [importee] ++ ["./" ++ importee]
  else [importee]

/-- README lines 222–236: the post-error tail — the (unreachable) builtin
re-check with the `PREFER_BUILTINS` advisory, else the resolved-id record. -/
def finish (ctx : Ctx) (cfg : Config) (importee importSuffix : String)
    (probes : List (String × String)) (r : ResolveResult) (ws : List Warning) : RLNResult :=
  if isBuiltinSpec ctx cfg importee && cfg.preferBuiltins.eval importee then
    ⟨.externalFalse, probes,
      ws ++
        (if !cfg.isPreferBuiltinsSet && decide (r.path ≠ some importee) then
          [Warning.preferBuiltins importee r.path]
        else [])⟩
  else
    ⟨.resolvedId (jsPathConcat r.path importSuffix), probes, ws⟩

/-- README lines 188–236 after the builtin pre-check: the probe loop (same
never-breaking loop as the Src variant), then the error handling — a
diagnostic starting with `Builtin module` is reclassified as an External
record for the package name `id`; any other nonempty diagnostic is warned
and resolution continues. -/
def afterProbe (ctx : Ctx) (cfg : Config) (id importee importSuffix : String)
    (specList : List String) (base : String) : RLNResult :=
  match runProbes ctx base specList with
  | (none, probes) => ⟨.nullResult, probes, []⟩
  | (some r, probes) =>
    match r.error with
    | some e =>
      if e ≠ "" then
        if jsStartsWith e "Builtin module" then ⟨.externalRecord id, probes, []⟩
        else finish ctx cfg importee importSuffix probes r [.engineError e]
      else finish ctx cfg importee importSuffix probes r []
    | none => finish ctx cfg importee importSuffix probes r []

/-- The body of the Dist `resolveLikeNode` after query stripping (README
lines 142–236).  The builtin pre-check of lines 180–186 returns an
**external record** `{ id, external: true, moduleSideEffects: false }`
in this variant. -/
def resolveCore (ctx : Ctx) (cfg : Config) (input : RollupInput)
    (importee importSuffix : String) (importer : Option String) : RLNResult :=
  if gateFails ctx cfg (baseDirOf ctx cfg importer) importee then
    if (normalizeInput input).contains importee then ⟨.nullResult, [], []⟩
    else ⟨.externalFalse, [], []⟩
  else if isBuiltinSpec ctx cfg importee && cfg.preferBuiltins.eval importee then
    ⟨.externalRecord (classify ctx (baseDirOf ctx cfg importer) importee).1, [], []⟩
  else
    afterProbe ctx cfg (classify ctx (baseDirOf ctx cfg importer) importee).1
      importee importSuffix (importSpecifierList importee importer)
      (probeBase ctx cfg importer)

/-- `resolveLikeNode` of the Dist variant (README lines 132–237). -/
def resolveLikeNode (ctx : Ctx) (cfg : Config) (input : RollupInput)
    (importee : String) (importer : Option String) : RLNResult :=
  resolveCore ctx cfg input (jsSplitQuery importee).1 (jsSplitQuery importee).2 importer

end Dist

/-! ## Helper lemmas -/

theorem str_append_empty (s : String) : s ++ "" = s := by
  cases s with
  | mk d => show String.mk (d ++ []) = String.mk d; simp

theorem jsPathConcat_empty_append (p : Option String) (suf : String) :
    jsPathConcat p "" ++ suf = jsPathConcat p suf := by
  cases p <;> simp [jsPathConcat, str_append_empty]

/-- The relative-import flag computed by `classify` is a function of the
specifier text alone. -/
theorem classify_snd_eq (ctx : Ctx) (baseDir s : String) :
    (classify ctx baseDir s).2 = isRelativeSpecifier s := by
  unfold classify isRelativeSpecifier
  cases hs : splitPath s with
  | nil => simp [firstChar]
  | cons id0 rest =>
    simp only [List.headD_cons]
    split
    · rename_i hcond
      have h1 : firstChar id0 = some '@' := by
        rw [Bool.and_eq_true] at hcond
        exact of_decide_eq_true hcond.1
      simp [h1]
    · split
      · rename_i hdot
        simp_all
      · rename_i hdot
        simp_all

/-- A relative import bypasses the resolve-only gate. -/
theorem gateFails_of_relative (ctx : Ctx) (cfg : Config) (baseDir p : String)
    (h : isRelativeSpecifier p = true) : gateFails ctx cfg baseDir p = false := by
  unfold gateFails
  rw [classify_snd_eq, h]
  simp

/-- Rewriting a fold that conditionally pushes elements into append-of-filterMap
form (the shape of the TypeScript-interop for-loop). -/
theorem foldl_push_eq_filterMap {α β : Type} (c : α → Bool) (g : α → β) (l : List α) :
    ∀ acc : List β,
      l.foldl (fun a x => if c x then a ++ [g x] else a) acc =
        acc ++ l.filterMap (fun x => if c x then some (g x) else none) := by
  induction l with
  | nil => intro acc; simp
  | cons x xs ih =>
    intro acc
    by_cases h : c x = true <;> simp [h, ih]

/-! ## Concrete fixtures used by the claim theorems -/

/-- An engine that resolves the first candidate of a root-level `a` request
and fails every other probe. -/
def ctxFirstSucceeds : Ctx :=
  { engine := fun base spec =>
      if base = "/cwd" && spec = "a" then ⟨some "/r/a.js", none⟩
      else ⟨none, some "x"⟩
    cwd := "/cwd", dirname := fun _ => "/d", pathResolve := fun _ s => s,
    builtinList := ["fs", "path"], hostResolve := fun _ _ => none }

/-- An engine for which every probe fails with a diagnostic. -/
def ctxNoneResolve : Ctx :=
  { ctxFirstSucceeds with engine := fun _ _ => ⟨none, some "not found"⟩ }

/-- An engine that resolves `fs` from `/a/b.js` to a local file that shadows
the platform builtin. -/
def ctxLocalShadow : Ctx :=
  { ctxFirstSucceeds with
    engine := fun base spec =>
      if base = "/a/b.js" && spec = "fs" then ⟨some "/a/nm/fs/index.js", none⟩
      else ⟨none, some "e"⟩ }

/-- An engine that resolves the query-stripped candidate `mod`. -/
def ctxQuery : Ctx :=
  { ctxFirstSucceeds with
    engine := fun base spec =>
      if base = "/a/b.js" && spec = "mod" then ⟨some "/m.js", none⟩
      else ⟨none, some "e"⟩ }

/-- The Src configuration with all-default options. -/
def cfgDef : Config := Src.mkConfig {}

/-- Src configuration with builtin-module recognition switched on. -/
def cfgBuiltins : Config := Src.mkConfig { builtinModules := some true }

/-- Src configuration with builtin recognition on and `preferBuiltins`
explicitly set to `true`. -/
def cfgBuiltinsPrefer : Config :=
  Src.mkConfig { builtinModules := some true, preferBuiltins := some (.bool true) }

/-- Src configuration whose `extensions` list contains `.mts` (and whose
`extensionAlias` table is absent, hence empty). -/
def cfgMts : Config := Src.mkConfig { extensions := some [".mts"] }

/-- The Dist configuration with all-default options. -/
def distCfgDef : Config := Dist.mkConfig "/cwd" {}

/-- Dist configuration with `preferBuiltins` explicitly set to `true`. -/
def distCfgPrefer : Config := Dist.mkConfig "/cwd" { preferBuiltins := some (.bool true) }

/-! ## Claim theorems -/

/-- C1.  The claim says the orchestrator stops at the first candidate whose
engine result has a non-empty path and that no later candidate's result
replaces it.  The probe loop has no early exit (the trailing
`if (!resolved.path) continue;` is a no-op), so on the request `a` at the
graph root — whose first candidate `a` resolves to `/r/a.js` and whose
fallback candidate `./a` fails — every candidate is probed, the failing
last result overwrites the earlier success, and the returned id is the
string `"undefined"` rather than `/r/a.js`. -/
theorem claim_C1_first_success_overwritten :
    Src.resolveLikeNode ctxFirstSucceeds cfgDef (.arr []) "a" none =
      ⟨.resolvedId "undefined", [("/cwd", "a"), ("/cwd", "./a")], [.engineError "x"]⟩ ∧
    (Src.resolveLikeNode ctxFirstSucceeds cfgDef (.arr []) "a" none).outcome ≠
      .resolvedId "/r/a.js" := by
  constructor <;> decide

/-- C2.  The claim says a fully exhausted candidate list yields a null
(no-opinion) outcome.  The `if (!resolved) return null` guard is
unreachable (the candidate list is never empty), so after every candidate
fails the code falls through to `return { id: resolved.path + importSuffix }`
with `resolved.path` undefined, producing a resolved-id record whose id is
the coerced string `"undefined"` — not null. -/
theorem claim_C2_exhaustion_returns_undefined_record :
    Src.resolveLikeNode ctxNoneResolve cfgDef (.arr []) "pkg" (some "/p/m.js") =
      ⟨.resolvedId "undefined", [("/p/m.js", "pkg")], [.engineError "not found"]⟩ ∧
    (Src.resolveLikeNode ctxNoneResolve cfgDef (.arr []) "pkg" (some "/p/m.js")).outcome ≠
      .nullResult := by
  constructor <;> decide

/-- C3.  The claim says a recognized, preferred builtin is marked External
with no engine call.  In `src/src/index.ts` the pre-check returns `null`
(no opinion), not an External outcome — the engine is indeed never invoked
(no probes) — while the Dist variant of the same plugin returns the
External record the claim (and the spec's decision table) describes. -/
theorem claim_C3_builtin_precheck_null_not_external :
    Src.resolveLikeNode ctxNoneResolve cfgBuiltins (.arr []) "node:fs" (some "/a/b.js") =
      ⟨.nullResult, [], []⟩ ∧
    Dist.resolveLikeNode ctxNoneResolve distCfgDef (.arr []) "node:fs" (some "/a/b.js") =
      ⟨.externalRecord "node:fs", [], []⟩ := by
  constructor <;> decide

/-- C4.  The claim characterises when the PREFER_BUILTINS advisory is
emitted and says explicit `preferBuiltins: true` keeps the External
outcome.  In the code the advisory block re-tests the exact condition the
builtin pre-check already returned on, so it is unreachable: no run of
`resolveLikeNode` ever emits the advisory (first conjunct, all inputs).
Moreover with explicit `preferBuiltins: true` the Src variant returns
`null`, not an External outcome (second conjunct), while the Dist variant
does return the External record (third conjunct). -/
theorem claim_C4_advisory_unreachable :
    (∀ (ctx : Ctx) (cfg : Config) (input : RollupInput) (importee : String)
        (importer : Option String) (i : String) (p : Option String),
      Warning.preferBuiltins i p ∉
        (Src.resolveLikeNode ctx cfg input importee importer).warnings) ∧
    Src.resolveLikeNode ctxLocalShadow cfgBuiltinsPrefer (.arr []) "fs" (some "/a/b.js") =
      ⟨.nullResult, [], []⟩ ∧
    Dist.resolveLikeNode ctxLocalShadow distCfgPrefer (.arr []) "fs" (some "/a/b.js") =
      ⟨.externalRecord "fs", [], []⟩ := by
  refine ⟨?_, by decide, by decide⟩
  intro ctx cfg input importee importer i p
  unfold Src.resolveLikeNode Src.resolveCore
  split
  · split <;> simp
  · split
    · simp
    · rename_i hnotBuiltin
      unfold Src.afterProbe
      split
      · simp
      · split
        · rename_i hb
          exact absurd hb hnotBuiltin
        · simp only [errWarnings]
          split
          · split <;> simp
          · simp

/-- C5.  The claim says `builtinModules` defaults to `true`, so that with no
user options a specifier naming a platform builtin yields the builtin
(External) outcome even when it also resolves locally.  In
`src/src/index.ts` the option is destructured without a default, so the
default configuration leaves recognition disabled: importing `fs` with the
wholly-default config runs the engine and returns the shadowing local file.
The Dist variant defaults the option to `true` and returns the External
record, as the claim describes. -/
theorem claim_C5_builtins_default_off_in_src :
    (Src.mkConfig {}).useBuiltinModules = false ∧
    Src.resolveLikeNode ctxLocalShadow cfgDef (.arr []) "fs" (some "/a/b.js") =
      ⟨.resolvedId "/a/nm/fs/index.js", [("/a/b.js", "fs")], []⟩ ∧
    (Dist.mkConfig "/cwd" {}).useBuiltinModules = true ∧
    Dist.resolveLikeNode ctxLocalShadow distCfgDef (.arr []) "fs" (some "/a/b.js") =
      ⟨.externalRecord "fs", [], []⟩ := by
  refine ⟨by decide, by decide, by decide, by decide⟩

/-- C9.  The claim says the `./`-prefixed fallback is added exactly when the
request is a graph root and the specifier does not already look relative or
absolute.  The code applies the regex to `importee[0]` only, so just a
leading `/` suppresses the fallback: root specifiers `./foo` and `../foo`
still receive a (redundant) fallback candidate, contradicting the claim and
the code's own comment; `/abs` and the bare fragment `foo/bar` behave as
claimed. -/
theorem claim_C9_fallback_first_char_only :
    Src.importSpecifierList cfgDef "./foo" none = ["./foo", "././foo"] ∧
    Src.importSpecifierList cfgDef "../foo" none = ["../foo", "./../foo"] ∧
    Src.importSpecifierList cfgDef "/abs" none = ["/abs"] ∧
    Src.importSpecifierList cfgDef "foo/bar" none = ["foo/bar", "./foo/bar"] := by
  refine ⟨by decide, by decide, by decide, by decide⟩

/-- Rewriting an outcome so that a resolved id gets the query suffix
appended; all other outcome kinds, the probe list and the warnings are
untouched. -/
def mapOutcomeSuffix (suf : String) (r : RLNResult) : RLNResult :=
  { r with
    outcome :=
      match r.outcome with
      | .resolvedId i => .resolvedId (i ++ suf)
      | o => o }

/-- The suffix threaded through `Src.resolveCore` only ever reaches the
final resolved id: the run equals the suffix-free run with the suffix
appended to a resolved id. -/
theorem Src.resolveCore_suffix (ctx : Ctx) (cfg : Config) (input : RollupInput)
    (p suf : String) (importer : Option String) :
    Src.resolveCore ctx cfg input p suf importer =
      mapOutcomeSuffix suf (Src.resolveCore ctx cfg input p "" importer) := by
  unfold Src.resolveCore
  split
  · split <;> rfl
  · split
    · rfl
    · unfold Src.afterProbe
      split
      · rfl
      · split
        · rfl
        · simp only [mapOutcomeSuffix, jsPathConcat_empty_append]

/-- C6, counterexample.  The claim says a `?query` suffix is preserved
verbatim, character for character, on the final resolved id.  For the
specifier `mod?x?y` — whose verbatim suffix is `?x?y` — the destructuring
`const [importPath, params] = importee.split('?')` keeps only the text
between the first and second `?`, so the engine is probed with `mod` alone
(as claimed) but the final id is `/m.js?x`, not `/m.js?x?y`. -/
theorem claim_C6_counterexample :
    Src.resolveLikeNode ctxQuery cfgDef (.arr []) "mod?x?y" (some "/a/b.js") =
      ⟨.resolvedId "/m.js?x", [("/a/b.js", "mod")], []⟩ ∧
    (Src.resolveLikeNode ctxQuery cfgDef (.arr []) "mod?x?y" (some "/a/b.js")).outcome ≠
      .resolvedId ("/m.js" ++ "?x?y") := by
  constructor <;> decide

/-- C6, amended.  For every request, resolution works entirely on the
query-stripped path (every candidate sent to the engine, every probe and
every warning is that of the suffix-free run), and the reattached suffix is
exactly `jsSplitQuery`'s second component: a `?` followed by the text
strictly between the first and second `?` of the specifier (the whole
suffix when it contains no further `?`, nothing when that text is empty),
appended to the resolved id only. -/
theorem claim_C6_amended (ctx : Ctx) (cfg : Config) (input : RollupInput)
    (importee : String) (importer : Option String) :
    Src.resolveLikeNode ctx cfg input importee importer =
      mapOutcomeSuffix (jsSplitQuery importee).2
        (Src.resolveCore ctx cfg input (jsSplitQuery importee).1 "" importer) :=
  Src.resolveCore_suffix ctx cfg input (jsSplitQuery importee).1
    (jsSplitQuery importee).2 importer

/-- C7.  The resolve-only gate: (1) a relative specifier always bypasses the
gate — the run is identical whatever gate predicate is configured; (2) a
non-relative specifier whose package name fails the gate yields the null
(deferred) outcome when the query-stripped specifier is one of the build's
declared entry inputs and the `false` (rejected) outcome otherwise, with no
engine probe and no warning in either case; (3) when no `resolveOnly`
restriction is configured the effective gate accepts every id; (4) the
`allowPatterns` helper with an empty pattern list accepts every id. -/
theorem claim_C7_gate_policy :
    (∀ (ctx : Ctx) (cfg : Config) (g g' : String → Bool) (input : RollupInput)
        (importee : String) (importer : Option String),
      isRelativeSpecifier (jsSplitQuery importee).1 = true →
      Src.resolveLikeNode ctx { cfg with resolveOnly := g } input importee importer =
        Src.resolveLikeNode ctx { cfg with resolveOnly := g' } input importee importer) ∧
    (∀ (ctx : Ctx) (cfg : Config) (input : RollupInput) (p suf : String)
        (importer : Option String),
      isRelativeSpecifier p = false →
      cfg.resolveOnly (classify ctx (Src.baseDirOf ctx importer) p).1 = false →
      ((normalizeInput input).contains p = true →
        Src.resolveCore ctx cfg input p suf importer = ⟨.nullResult, [], []⟩) ∧
      ((normalizeInput input).contains p = false →
        Src.resolveCore ctx cfg input p suf importer = ⟨.externalFalse, [], []⟩)) ∧
    (∀ o : UserOptions, o.resolveOnly = none →
      ∀ id, (Src.mkConfig o).resolveOnly id = true) ∧
    (∀ id, allowPatterns [] id = true) := by
  refine ⟨?_, ?_, ?_, ?_⟩
  · intro ctx cfg g g' input importee importer hrel
    unfold Src.resolveLikeNode Src.resolveCore
    rw [gateFails_of_relative _ _ _ _ hrel, gateFails_of_relative _ _ _ _ hrel]
    simp only [Bool.false_eq_true, if_false]
    rfl
  · intro ctx cfg input p suf importer hrel hgate
    have hg : gateFails ctx cfg (Src.baseDirOf ctx importer) p = true := by
      unfold gateFails
      rw [classify_snd_eq, hrel, hgate]
      rfl
    constructor
    · intro hc
      unfold Src.resolveCore
      rw [hg, hc]
      simp
    · intro hc
      unfold Src.resolveCore
      rw [hg, hc]
      simp
  · intro o h id
    simp only [Src.mkConfig, mergeOptions, h]
    rfl
  · intro id
    rfl

/-- C7, witness: instances of the four conjuncts — a relative specifier
(`./x`) resolved identically under an all-rejecting and an all-accepting
gate; the bare specifier `lodash` rejected by the gate, deferred as null
when it is a declared entry input and rejected as `false` otherwise; the
default configuration's gate and `allowPatterns []` accepting anything. -/
theorem claim_C7_gate_policy_witness :
    (Src.resolveLikeNode ctxFirstSucceeds { cfgDef with resolveOnly := fun _ => false }
        (.arr []) "./x" (some "/a/b.js") =
      Src.resolveLikeNode ctxFirstSucceeds { cfgDef with resolveOnly := fun _ => true }
        (.arr []) "./x" (some "/a/b.js")) ∧
    Src.resolveCore ctxFirstSucceeds { cfgDef with resolveOnly := fun _ => false }
        (.arr ["lodash"]) "lodash" "" (some "/a/b.js") = ⟨.nullResult, [], []⟩ ∧
    Src.resolveCore ctxFirstSucceeds { cfgDef with resolveOnly := fun _ => false }
        (.arr []) "lodash" "" (some "/a/b.js") = ⟨.externalFalse, [], []⟩ ∧
    (Src.mkConfig {}).resolveOnly "anything" = true ∧
    allowPatterns [] "x" = true :=
  ⟨claim_C7_gate_policy.1 ctxFirstSucceeds cfgDef (fun _ => false) (fun _ => true)
      (.arr []) "./x" (some "/a/b.js") (by decide),
   (claim_C7_gate_policy.2.1 ctxFirstSucceeds _ (.arr ["lodash"]) "lodash" ""
      (some "/a/b.js") (by decide) rfl).1 (by decide),
   (claim_C7_gate_policy.2.1 ctxFirstSucceeds _ (.arr []) "lodash" ""
      (some "/a/b.js") (by decide) rfl).2 (by decide),
   claim_C7_gate_policy.2.2.1 {} rfl "anything",
   claim_C7_gate_policy.2.2.2 "x"⟩

/-! ## Claim C8 -/

/-- TypeScript-family extensions (`.ts`, `.tsx`, `.mts`, `.cts`). -/
def isTsFamilyExt (e : String) : Bool :=
  e = ".ts" || e = ".tsx" || e = ".mts" || e = ".cts"

/-- Lookup of an ending in an extension-alias table (empty list when the
ending is not listed). -/
def lookupAlias (t : List (String × List String)) (e : String) : List String :=
  (t.lookup e).getD []

/-- The claim's candidate-variant rule, as the claim words it (a second
definition written from the claim for comparison with the code):
for a specifier ending in `.js`, `.jsx`, `.mjs`, or `.cjs`, append one
swapped-ending variant for each TypeScript counterpart extension that the
extension-alias table lists as acceptable for that ending, in the alias
table's declared order. -/
def claimedTsVariants (t : List (String × List String)) (importee : String) : List String :=
  [".js", ".jsx", ".mjs", ".cjs"].foldl
    (fun acc ending =>
      if jsEndsWith importee ending then
        acc ++ ((lookupAlias t ending).filter isTsFamilyExt).map
          (fun r => jsDropRight importee ending.length ++ r)
      else acc)
    []

/-- C8, counterexample.  With `extensions: ['.mts']` and no `extensionAlias`
configured (so the merged alias table is empty), an importer `a.ts` and a
specifier `b.mjs`: the claim says no variant may be appended (the alias
table lists nothing), but the code consults the `extensions` list, not the
alias table, and appends `b.mts`. -/
theorem claim_C8_counterexample :
    Src.importSpecifierList cfgMts "b.mjs" (some "/a/a.ts") = ["b.mjs", "b.mts"] ∧
    cfgMts.extensionAlias = [] ∧
    "b.mjs" :: claimedTsVariants [] "b.mjs" = ["b.mjs"] ∧
    (["b.mjs", "b.mts"] : List String) ≠ ["b.mjs"] := by
  refine ⟨by decide, by decide, by decide, by decide⟩

/-- C8, amended.  The swapped-extension variants are appended after the
original specifier when the importer has a TypeScript-family extension, one
for each hardcoded pair (`.js`→`.ts`, `.js`→`.tsx`, `.jsx`→`.tsx`,
`.mjs`→`.mts`, `.cjs`→`.cts`) whose source ending matches the specifier and
whose counterpart appears in the configured `extensions` list, in the fixed
pair order — the `extensionAlias` table plays no role in the candidate list
(first conjunct: the list is invariant under any change to it). -/
theorem claim_C8_amended :
    (∀ (cfg : Config) (ea : List (String × List String)) (importee : String)
        (importer : Option String),
      Src.importSpecifierList { cfg with extensionAlias := ea } importee importer =
        Src.importSpecifierList cfg importee importer) ∧
    (∀ (cfg : Config) (importee imp : String),
      importerIsTs (some imp) = true →
      Src.importSpecifierList cfg importee (some imp) =
        importee :: tsExtPairs.filterMap
          (fun pr =>
            if jsEndsWith importee pr.1 && cfg.extensions.contains pr.2 then
              some (jsDropRight importee pr.1.length ++ pr.2)
            else none)) ∧
    (∀ (cfg : Config) (importee imp : String),
      importerIsTs (some imp) = false →
      Src.importSpecifierList cfg importee (some imp) = [importee]) := by
  refine ⟨?_, ?_, ?_⟩
  · intro cfg ea importee importer
    rfl
  · intro cfg importee imp h
    unfold Src.importSpecifierList
    simp only [h, if_true]
    rw [foldl_push_eq_filterMap]
    simp
  · intro cfg importee imp h
    unfold Src.importSpecifierList
    simp [h]

/-- C8, witness for the amended theorem: the `extensionAlias`-invariance,
the TypeScript-importer case evaluated on `b.mjs` from `a.ts` with
`extensions: ['.mts']`, and the non-TypeScript-importer case. -/
theorem claim_C8_amended_witness :
    Src.importSpecifierList { cfgMts with extensionAlias := [(".js", [".ts"])] }
        "b.mjs" (some "/a/a.ts") =
      Src.importSpecifierList cfgMts "b.mjs" (some "/a/a.ts") ∧
    Src.importSpecifierList cfgMts "b.mjs" (some "/a/a.ts") = ["b.mjs", "b.mts"] ∧
    Src.importSpecifierList cfgDef "x.js" (some "/a/a.js") = ["x.js"] :=
  ⟨claim_C8_amended.1 cfgMts [(".js", [".ts"])] "b.mjs" (some "/a/a.ts"),
   (claim_C8_amended.2.1 cfgMts "b.mjs" "/a/a.ts" (by decide)).trans (by decide),
   claim_C8_amended.2.2 cfgDef "x.js" "/a/a.js" (by decide)⟩

/-- The probes of `Src.afterProbe` are exactly the candidate list, each
based at the given base directory, in order. -/
theorem Src.afterProbe_probes (ctx : Ctx) (cfg : Config) (p suf : String)
    (l : List String) (base : String) :
    (Src.afterProbe ctx cfg p suf l base).probes = l.map (fun s => (base, s)) := by
  unfold Src.afterProbe
  split
  · rename_i heq
    unfold runProbes at heq
    rw [Prod.mk.injEq] at heq
    exact heq.2.symm
  · rename_i heq
    unfold runProbes at heq
    rw [Prod.mk.injEq] at heq
    split
    · exact heq.2.symm
    · exact heq.2.symm

/-- With no importer, every engine probe of a run uses `process.cwd()` as
its base (the Src variant's `importer ?? process.cwd()`). -/
theorem Src.probes_base_cwd (ctx : Ctx) (cfg : Config) (input : RollupInput)
    (importee : String) (pr : String × String)
    (h : pr ∈ (Src.resolveLikeNode ctx cfg input importee none).probes) :
    pr.1 = ctx.cwd := by
  unfold Src.resolveLikeNode Src.resolveCore at h
  split at h
  · split at h <;> simp at h
  · split at h
    · simp at h
    · rw [Src.afterProbe_probes] at h
      simp only [List.mem_map] at h
      obtain ⟨s, _, hpr⟩ := h
      rw [← hpr]
      rfl

/-- C10.  The public `resolveId` hook: (1) the empty-module sentinel is
returned as itself, with no engine probe; (2) any other specifier that is
empty or contains a NUL character yields the null (no-opinion) value with
no engine probe; (3) an importer containing a NUL character is replaced by
`undefined`, so the whole hook behaves exactly as for an absent importer;
(4) with an absent importer every engine probe is based at the root
(`process.cwd()`) directory. -/
theorem claim_C10_hook_guards :
    (∀ (ctx : Ctx) (cfg : Config) (input : RollupInput) (importer : Option String)
        (ar : Option String),
      Src.resolveIdHandler ctx cfg input ES6_BROWSER_EMPTY importer ar =
        ⟨.str ES6_BROWSER_EMPTY, [], []⟩) ∧
    (∀ (ctx : Ctx) (cfg : Config) (input : RollupInput) (importee : String)
        (importer : Option String) (ar : Option String),
      importee ≠ ES6_BROWSER_EMPTY →
      (importee = "" ∨ importee.data.contains nulChar = true) →
      Src.resolveIdHandler ctx cfg input importee importer ar = ⟨.nullV, [], []⟩) ∧
    (∀ (ctx : Ctx) (cfg : Config) (input : RollupInput) (importee imp : String),
      imp.data.contains nulChar = true →
      Src.resolveIdHandler ctx cfg input importee (some imp) none =
        Src.resolveIdHandler ctx cfg input importee none none) ∧
    (∀ (ctx : Ctx) (cfg : Config) (input : RollupInput) (importee : String)
        (pr : String × String),
      pr ∈ (Src.resolveLikeNode ctx cfg input importee none).probes → pr.1 = ctx.cwd) := by
  refine ⟨?_, ?_, ?_, ?_⟩
  · intro ctx cfg input importer ar
    simp [Src.resolveIdHandler]
  · intro ctx cfg input importee importer ar h1 h2
    unfold Src.resolveIdHandler
    rw [if_neg h1]
    by_cases he : importee = ""
    · rw [if_pos he]
    · rw [if_neg he]
      rcases h2 with h2 | h2
      · exact absurd h2 he
      · rw [if_pos h2]
  · intro ctx cfg input importee imp h
    have hnorm : Src.normImporter (some imp) = Src.normImporter none := by
      show (if imp.data.contains nulChar = true then none else some imp) = none
      exact if_pos h
    unfold Src.resolveIdHandler
    rw [hnorm]
  · exact Src.probes_base_cwd

/-- C10, witness: the sentinel short-circuit, a NUL-bearing specifier
yielding null, a NUL-bearing importer behaving as an absent importer, and a
concrete root probe based at `process.cwd()`. -/
theorem claim_C10_hook_guards_witness :
    Src.resolveIdHandler ctxFirstSucceeds cfgDef (.arr []) ES6_BROWSER_EMPTY none none =
      ⟨.str ES6_BROWSER_EMPTY, [], []⟩ ∧
    Src.resolveIdHandler ctxFirstSucceeds cfgDef (.arr []) "a\x00b" none none =
      ⟨.nullV, [], []⟩ ∧
    Src.resolveIdHandler ctxFirstSucceeds cfgDef (.arr []) "m" (some "/x\x00y") none =
      Src.resolveIdHandler ctxFirstSucceeds cfgDef (.arr []) "m" none none ∧
    (("/cwd", "a") : String × String).1 = ctxFirstSucceeds.cwd :=
  ⟨claim_C10_hook_guards.1 ctxFirstSucceeds cfgDef (.arr []) none none,
   claim_C10_hook_guards.2.1 ctxFirstSucceeds cfgDef (.arr []) "a\x00b" none none
     (by decide) (Or.inr (by decide)),
   claim_C10_hook_guards.2.2.1 ctxFirstSucceeds cfgDef (.arr []) "m" "/x\x00y" (by decide),
   claim_C10_hook_guards.2.2.2 ctxFirstSucceeds cfgDef (.arr []) "a" ("/cwd", "a")
     (by decide)⟩

end OxcResolve
